import Mathlib

/-!
Shallow embedding of `scripts/remove_bg.py`.

The script reads the full byte contents of an input file, passes them to an
external background-removal routine (`rembg.remove`), writes the returned
bytes to an output path, and translates success/failure into process exit
codes.  We model:

  * the file system as a map `String → Option (List Nat)` (path to bytes);
  * writability of a path as a predicate, since opening for write can fail;
  * the external routine as an arbitrary function
    `List Nat → Except String (List Nat)` — it may raise an exception
    carrying a message string, and is otherwise a black box;
  * the `try:` block of `remove_background` as an `Except String`
    computation (`tryBody`), and the single `except Exception` handler as
    the one `match` in `remove_background`;
  * observable behaviour as a `RunResult`: final file system, stdout lines,
    stderr lines, return code, plus a trace of file-read attempts and of
    calls to the external routine (used to state that the usage path
    performs no I/O).
-/

/-- Bytes of a file, as in Python `bytes`. -/
abbrev Bytes := List Nat

/-- A file system: each path maps to the bytes stored there, if any. -/
abbrev Fs := String → Option Bytes

/-- The ambient world a run executes in: the file system, which paths can be
opened for writing, and the external `rembg.remove` routine (which may raise,
modelled as `Except` with the exception's message string). -/
structure World where
  fs : Fs
  writable : String → Bool
  rembg : Bytes → Except String Bytes

/-- Message of the `FileNotFoundError` raised by `open(path, 'rb')`. -/
def readErrMsg (p : String) : String :=
  "[Errno 2] No such file or directory: '" ++ p ++ "'"

/-- Message of the `OSError` raised by `open(path, 'wb')` on an unwritable
destination. -/
def writeErrMsg (p : String) : String :=
  "[Errno 13] Permission denied: '" ++ p ++ "'"

/-- `with open(input_path, 'rb') as f: f.read()` — returns the file's full
byte contents, or raises if the path does not reference an existing file. -/
def readFileE (w : World) (p : String) : Except String Bytes :=
  match w.fs p with
  | some bs => .ok bs
  | none => .error (readErrMsg p)

/-- `with open(output_path, 'wb') as f: f.write(data)` — returns the updated
file system, or raises if the destination cannot be opened for writing. -/
def writeFileE (w : World) (p : String) (data : Bytes) : Except String Fs :=
  if w.writable p then
    .ok (fun q => if q = p then some data else w.fs q)
  else
    .error (writeErrMsg p)

/-- The trace of a run: the paths whose read was attempted, and the byte
strings passed to the external routine. -/
structure Trace where
  reads : List String
  calls : List Bytes
deriving DecidableEq

/-- The `try:` block of `remove_background`: read the input file, call the
external routine, write its result to the output path.  Returns the updated
file system and the success message, or the message of the first exception
raised; alongside, the trace of reads and external calls made. -/
def tryBody (w : World) (input_path output_path : String) :
    Except String (Fs × String) × Trace :=
  match readFileE w input_path with
  | .error e => (.error e, ⟨[input_path], []⟩)
  | .ok input_data =>
    match w.rembg input_data with
    | .error e => (.error e, ⟨[input_path], [input_data]⟩)
    | .ok output_data =>
      match writeFileE w output_path output_data with
      | .error e => (.error e, ⟨[input_path], [input_data]⟩)
      | .ok fs2 =>
        (.ok (fs2, "SUCCESS: Background removed and saved to " ++ output_path),
         ⟨[input_path], [input_data]⟩)

/-- Observable outcome of a run: final file system, stdout and stderr lines
in order, the process return code, and the I/O trace. -/
structure RunResult where
  fs : Fs
  stdout : List String
  stderr : List String
  retcode : Nat
  trace : Trace

/-- `remove_background(input_path, output_path)`: run the `try:` body; on
success print the success line to stdout and return 0, on any exception
print `ERROR: <message>` to stderr and return 1 — the single catch-all
`except Exception` handler of the script. -/
def remove_background (w : World) (input_path output_path : String) : RunResult :=
  match tryBody w input_path output_path with
  | (.ok (fs2, msg), tr) => ⟨fs2, [msg], [], 0, tr⟩
  | (.error e, tr) => ⟨w.fs, [], ["ERROR: " ++ e], 1, tr⟩

/-- The usage string printed when the argument count is wrong. -/
def usageMsg : String :=
  "Usage: python remove_bg.py <input_path> <output_path>"

/-- The `__main__` block: `argv` is the full `sys.argv`, program name
included.  With exactly two arguments after the program name it runs
`remove_background` and exits with its return value; otherwise it prints the
usage string to stdout and exits with code 1. -/
def mainRun (w : World) (argv : List String) : RunResult :=
  match argv with
  | [_, input_path, output_path] => remove_background w input_path output_path
  | _ => ⟨w.fs, [usageMsg], [], 1, ⟨[], []⟩⟩

/-! ## Concrete worlds used in witnesses and counterexamples -/

/-- A world with one readable file `"in.png"` holding bytes `[7, 7]`, every
path writable, and an external routine that succeeds, prepending a `0` byte. -/
def okWorld : World where
  fs := fun p => if p = "in.png" then some [7, 7] else none
  writable := fun _ => true
  rembg := fun bs => .ok (0 :: bs)

/-- A world whose file `"in.png"` holds a single byte that the external
routine rejects: the input is readable and every path writable, yet
`rembg.remove` raises on its contents. -/
def badImageWorld : World where
  fs := fun p => if p = "in.png" then some [0] else none
  writable := fun _ => true
  rembg := fun _ => .error "invalid image"

/-- A world with no files at all (every read raises) and a succeeding
routine. -/
def emptyFsWorld : World where
  fs := fun _ => none
  writable := fun _ => true
  rembg := fun bs => .ok bs

/-! ## Shared characterisation lemmas -/

/-- When the read, the routine call and the write all succeed,
`remove_background` produces exactly: the file system updated at the output
path with the routine's bytes, the one success line on stdout, nothing on
stderr, return code 0, and a trace of one read and one routine call. -/
theorem remove_background_success (w : World) (i o : String) (bs out : Bytes)
    (hread : w.fs i = some bs) (hok : w.rembg bs = .ok out)
    (hw : w.writable o = true) :
    remove_background w i o =
      ⟨fun q => if q = o then some out else w.fs q,
       ["SUCCESS: Background removed and saved to " ++ o], [], 0,
       ⟨[i], [bs]⟩⟩ := by
  simp [remove_background, tryBody, readFileE, writeFileE, hread, hok, hw]

/-- When the `try:` body raises with message `e`, `remove_background` leaves
the file system unchanged, prints nothing to stdout, prints exactly
`ERROR: e` to stderr, and returns 1. -/
theorem remove_background_error_char (w : World) (i o e : String)
    (herr : (tryBody w i o).1 = .error e) :
    (remove_background w i o).fs = w.fs ∧
    (remove_background w i o).stdout = [] ∧
    (remove_background w i o).stderr = ["ERROR: " ++ e] ∧
    (remove_background w i o).retcode = 1 := by
  rcases htb : tryBody w i o with ⟨r, tr⟩
  rw [htb] at herr
  cases r with
  | ok v => exact absurd herr (by simp)
  | error e2 =>
    simp only [Except.error.injEq] at herr
    subst herr
    simp [remove_background, htb]

/-- `remove_background` returns 0 exactly when the read succeeded, the
routine succeeded on the bytes read, and the output path was writable. -/
theorem retcode_zero_char (w : World) (i o : String)
    (hsucc : (remove_background w i o).retcode = 0) :
    ∃ bs out, w.fs i = some bs ∧ w.rembg bs = .ok out ∧
      w.writable o = true := by
  rcases hfs : w.fs i with _ | bs
  · exact absurd hsucc
      (by simp [remove_background, tryBody, readFileE, hfs])
  · rcases hr : w.rembg bs with e | out
    · exact absurd hsucc
        (by simp [remove_background, tryBody, readFileE, hfs, hr])
    · cases hw : w.writable o with
      | false =>
        exact absurd hsucc
          (by simp [remove_background, tryBody, readFileE, writeFileE,
                hfs, hr, hw])
      | true => exact ⟨bs, out, rfl, hr, rfl⟩

/-- Paths other than the output path are untouched by `remove_background`. -/
theorem remove_background_frame (w : World) (i o p : String) (hp : p ≠ o) :
    (remove_background w i o).fs p = w.fs p := by
  rcases hfs : w.fs i with _ | bs
  · simp [remove_background, tryBody, readFileE, hfs]
  · rcases hr : w.rembg bs with e | out
    · simp [remove_background, tryBody, readFileE, hfs, hr]
    · cases hw : w.writable o with
      | false =>
        simp [remove_background, tryBody, readFileE, writeFileE, hfs, hr, hw]
      | true =>
        simp [remove_background, tryBody, readFileE, writeFileE,
          hfs, hr, hw, hp]

/-! ## Claims -/

/-- C1 (counterexample): a readable input file and a writable output path do
not by themselves guarantee success — in `badImageWorld` the input file
`"in.png"` exists and every path is writable, yet the external routine
raises on its bytes and the run exits with code 1, not 0. -/
theorem C1_counterexample :
    (∃ bs, badImageWorld.fs "in.png" = some bs) ∧
    badImageWorld.writable "out.png" = true ∧
    (mainRun badImageWorld ["remove_bg.py", "in.png", "out.png"]).retcode
      ≠ 0 := by
  refine ⟨⟨[0], rfl⟩, rfl, ?_⟩
  decide

/-- C1 (amended): for every invocation with a readable input file and a
writable output path, on whose bytes the external routine succeeds and
returns non-empty output, the script exits with code 0, prints exactly the
one stdout line `SUCCESS: Background removed and saved to <output_path>`,
and a non-empty file exists at the output path. -/
theorem C1_success_run (w : World) (pr i o : String) (bs out : Bytes)
    (hread : w.fs i = some bs) (hw : w.writable o = true)
    (hok : w.rembg bs = .ok out) (hne : out ≠ []) :
    (mainRun w [pr, i, o]).retcode = 0 ∧
    (mainRun w [pr, i, o]).stdout =
      ["SUCCESS: Background removed and saved to " ++ o] ∧
    ∃ fileBytes, (mainRun w [pr, i, o]).fs o = some fileBytes ∧
      fileBytes ≠ [] := by
  have h := remove_background_success w i o bs out hread hok hw
  refine ⟨?_, ?_, out, ?_, hne⟩ <;> simp [mainRun, h]

/-- C1 witness: the amended claim instantiated in `okWorld` at input
`"in.png"` and output `"out.png"`. -/
theorem C1_success_run_witness :
    (mainRun okWorld ["remove_bg.py", "in.png", "out.png"]).retcode = 0 ∧
    (mainRun okWorld ["remove_bg.py", "in.png", "out.png"]).stdout =
      ["SUCCESS: Background removed and saved to " ++ "out.png"] ∧
    ∃ fileBytes,
      (mainRun okWorld ["remove_bg.py", "in.png", "out.png"]).fs "out.png"
        = some fileBytes ∧ fileBytes ≠ [] :=
  C1_success_run okWorld "remove_bg.py" "in.png" "out.png" [7, 7] [0, 7, 7]
    rfl rfl rfl (by decide)

/-- C2: on every successful run, the bytes at the output path are exactly
the bytes the external routine returned for the full byte contents of the
input file — no transformation by the script before or after the call. -/
theorem C2_output_is_routine_result (w : World) (i o : String)
    (hsucc : (remove_background w i o).retcode = 0) :
    ∃ bs, w.fs i = some bs ∧
      ∃ out, w.rembg bs = .ok out ∧
        (remove_background w i o).fs o = some out := by
  obtain ⟨bs, out, hread, hok, hw⟩ := retcode_zero_char w i o hsucc
  refine ⟨bs, hread, out, hok, ?_⟩
  rw [remove_background_success w i o bs out hread hok hw]
  simp

/-- C2 witness: in `okWorld` the successful run writes to `"out.png"`
exactly the routine's output `[0, 7, 7]` for the input bytes `[7, 7]`. -/
theorem C2_output_is_routine_result_witness :
    ∃ bs, okWorld.fs "in.png" = some bs ∧
      ∃ out, okWorld.rembg bs = .ok out ∧
        (remove_background okWorld "in.png" "out.png").fs "out.png"
          = some out :=
  C2_output_is_routine_result okWorld "in.png" "out.png" rfl

/-- C3: whenever the argument count is not exactly three (program name plus
two arguments), the script prints the usage string to stdout, prints nothing
to stderr, exits with code 1, leaves the file system untouched, and performs
no file read and no call to the external routine (empty trace). -/
theorem C3_wrong_arg_count (w : World) (argv : List String)
    (h : argv.length ≠ 3) :
    (mainRun w argv).stdout = [usageMsg] ∧
    (mainRun w argv).stderr = [] ∧
    (mainRun w argv).retcode = 1 ∧
    (mainRun w argv).fs = w.fs ∧
    (mainRun w argv).trace = ⟨[], []⟩ := by
  match argv with
  | [] => exact ⟨rfl, rfl, rfl, rfl, rfl⟩
  | [a] => exact ⟨rfl, rfl, rfl, rfl, rfl⟩
  | [a, b] => exact ⟨rfl, rfl, rfl, rfl, rfl⟩
  | [a, b, c] => exact absurd rfl h
  | a :: b :: c :: d :: rest => exact ⟨rfl, rfl, rfl, rfl, rfl⟩

/-- C3 witness: invoking with the program name alone prints the usage line
and exits 1 without touching files or the routine. -/
theorem C3_wrong_arg_count_witness :
    (mainRun okWorld ["remove_bg.py"]).stdout = [usageMsg] ∧
    (mainRun okWorld ["remove_bg.py"]).stderr = [] ∧
    (mainRun okWorld ["remove_bg.py"]).retcode = 1 ∧
    (mainRun okWorld ["remove_bg.py"]).fs = okWorld.fs ∧
    (mainRun okWorld ["remove_bg.py"]).trace = ⟨[], []⟩ :=
  C3_wrong_arg_count okWorld ["remove_bg.py"] (by decide)

/-- C4: every exception raised by the `try:` body — reading the input,
calling the routine, or writing the output — is handled at the single
catch-all point: its message `e` is reported to stderr as the one line
`ERROR: e`, nothing goes to stdout, and the run returns 1, uniformly in the
error (no kind is distinguished). -/
theorem C4_single_catch_all (w : World) (i o e : String)
    (herr : (tryBody w i o).1 = .error e) :
    (remove_background w i o).stderr = ["ERROR: " ++ e] ∧
    (remove_background w i o).stdout = [] ∧
    (remove_background w i o).retcode = 1 := by
  obtain ⟨_, h1, h2, h3⟩ := remove_background_error_char w i o e herr
  exact ⟨h2, h1, h3⟩

/-- C4 witness: in `emptyFsWorld` the read of `"in.png"` raises a
file-not-found exception, which is reported as the single stderr line. -/
theorem C4_single_catch_all_witness :
    (remove_background emptyFsWorld "in.png" "out.png").stderr
      = ["ERROR: " ++ readErrMsg "in.png"] ∧
    (remove_background emptyFsWorld "in.png" "out.png").stdout = [] ∧
    (remove_background emptyFsWorld "in.png" "out.png").retcode = 1 :=
  C4_single_catch_all emptyFsWorld "in.png" "out.png" (readErrMsg "in.png")
    rfl

/-- C5: for every invocation whatsoever, the exit code is 0 or 1, and it is
0 exactly when the argument count was right and the read-transform-write
body completed without an exception. -/
theorem C5_exit_codes (w : World) (argv : List String) :
    ((mainRun w argv).retcode = 0 ∨ (mainRun w argv).retcode = 1) ∧
    ((mainRun w argv).retcode = 0 ↔
      ∃ pr i o, argv = [pr, i, o] ∧
        ∃ r, (tryBody w i o).1 = .ok r) := by
  match argv with
  | [pr, i, o] =>
    rcases htb : tryBody w i o with ⟨r, tr⟩
    cases r with
    | ok v =>
      refine ⟨Or.inl (by simp [mainRun, remove_background, htb]), ?_, ?_⟩
      · intro _
        exact ⟨pr, i, o, rfl, v, by rw [htb]⟩
      · intro _
        simp [mainRun, remove_background, htb]
    | error e =>
      refine ⟨Or.inr (by simp [mainRun, remove_background, htb]), ?_, ?_⟩
      · intro h0
        exact absurd h0 (by simp [mainRun, remove_background, htb])
      · rintro ⟨pr2, i2, o2, heq, r2, hok⟩
        injection heq with hpr heq
        injection heq with hi heq
        injection heq with ho _
        subst hi
        subst ho
        rw [htb] at hok
        exact absurd hok (by simp)
  | [] =>
    refine ⟨Or.inr rfl, ?_, ?_⟩
    · intro h0
      exact absurd h0 (by simp [mainRun])
    · rintro ⟨pr, i, o, heq, _⟩
      exact List.noConfusion heq
  | [a] =>
    refine ⟨Or.inr rfl, ?_, ?_⟩
    · intro h0
      exact absurd h0 (by simp [mainRun])
    · rintro ⟨pr, i, o, heq, _⟩
      simp at heq
  | [a, b] =>
    refine ⟨Or.inr rfl, ?_, ?_⟩
    · intro h0
      exact absurd h0 (by simp [mainRun])
    · rintro ⟨pr, i, o, heq, _⟩
      simp at heq
  | a :: b :: c :: d :: rest =>
    refine ⟨Or.inr rfl, ?_, ?_⟩
    · intro h0
      exact absurd h0 (by simp [mainRun])
    · rintro ⟨pr, i, o, heq, _⟩
      simp at heq

/-- C6 (counterexample): the wrong-argument-count failure exits with code 1
but prints nothing at all to stderr — its one line (the usage string) goes
to stdout — so it is not of the form `ERROR: <exception message>`. -/
theorem C6_counterexample :
    (mainRun okWorld ["remove_bg.py"]).retcode = 1 ∧
    (mainRun okWorld ["remove_bg.py"]).stderr = [] :=
  ⟨rfl, rfl⟩

/-- C6 (amended): every failing invocation either prints exactly one stderr
line of the form `ERROR: <exception message>` (runtime failures inside
`remove_background`), or is the wrong-argument-count failure, which prints
nothing to stderr and the usage string to stdout. -/
theorem C6_failure_stderr (w : World) (argv : List String)
    (h : (mainRun w argv).retcode = 1) :
    (∃ e, (mainRun w argv).stderr = ["ERROR: " ++ e]) ∨
    ((mainRun w argv).stderr = [] ∧
      (mainRun w argv).stdout = [usageMsg]) := by
  match argv with
  | [pr, i, o] =>
    rcases htb : tryBody w i o with ⟨r, tr⟩
    cases r with
    | ok v =>
      exact absurd h (by simp [mainRun, remove_background, htb])
    | error e =>
      exact Or.inl ⟨e, by simp [mainRun, remove_background, htb]⟩
  | [] => exact Or.inr ⟨rfl, rfl⟩
  | [a] => exact Or.inr ⟨rfl, rfl⟩
  | [a, b] => exact Or.inr ⟨rfl, rfl⟩
  | a :: b :: c :: d :: rest => exact Or.inr ⟨rfl, rfl⟩

/-- C6 witness: the amended claim instantiated at the wrong-argument-count
failure in `okWorld`. -/
theorem C6_failure_stderr_witness :
    (∃ e, (mainRun okWorld ["remove_bg.py", "a"]).stderr
        = ["ERROR: " ++ e]) ∨
    ((mainRun okWorld ["remove_bg.py", "a"]).stderr = [] ∧
      (mainRun okWorld ["remove_bg.py", "a"]).stdout = [usageMsg]) :=
  C6_failure_stderr okWorld ["remove_bg.py", "a"] rfl

/-- C7: the only file-system location a run can change is the output path
of a correctly-invoked run; every other path — the input file included — is
left exactly as it was. -/
theorem C7_frame (w : World) (argv : List String) (p : String)
    (h : argv.length = 3 → p ≠ argv.getD 2 "") :
    (mainRun w argv).fs p = w.fs p := by
  match argv with
  | [pr, i, o] =>
    have hp : p ≠ o := h rfl
    exact remove_background_frame w i o p hp
  | [] => rfl
  | [a] => rfl
  | [a, b] => rfl
  | a :: b :: c :: d :: rest => rfl

/-- C7 witness: after a successful run in `okWorld`, the input file
`"in.png"` is unchanged. -/
theorem C7_frame_witness :
    (mainRun okWorld ["remove_bg.py", "in.png", "out.png"]).fs "in.png"
      = okWorld.fs "in.png" :=
  C7_frame okWorld ["remove_bg.py", "in.png", "out.png"] "in.png"
    (by decide)

/-- C8: when the input path references no existing file, the run exits with
code 1 and its single stderr line mentions that path (the path string occurs
inside the message). -/
theorem C8_missing_input (w : World) (pr i o : String)
    (h : w.fs i = none) :
    (mainRun w [pr, i, o]).retcode = 1 ∧
    ∃ a b, (mainRun w [pr, i, o]).stderr = [a ++ i ++ b] := by
  have herr : (tryBody w i o).1 = .error (readErrMsg i) := by
    simp [tryBody, readFileE, h]
  obtain ⟨_, _, h2, h3⟩ :=
    remove_background_error_char w i o (readErrMsg i) herr
  refine ⟨h3, "ERROR: " ++ "[Errno 2] No such file or directory: '", "'", ?_⟩
  show (remove_background w i o).stderr = _
  rw [h2]
  simp only [readErrMsg, List.cons.injEq, and_true, String.append_assoc]

/-- C8 witness: in `emptyFsWorld` the missing input `"in.png"` is reported
on stderr with the path inside the message, and the exit code is 1. -/
theorem C8_missing_input_witness :
    (mainRun emptyFsWorld ["remove_bg.py", "in.png", "out.png"]).retcode
      = 1 ∧
    ∃ a b,
      (mainRun emptyFsWorld ["remove_bg.py", "in.png", "out.png"]).stderr
        = [a ++ "in.png" ++ b] :=
  C8_missing_input emptyFsWorld "remove_bg.py" "in.png" "out.png" rfl

/-- C9: when the failure happens while reading the input file or inside the
background-removal routine — before the output file is opened — the whole
file system, the output location included, is exactly as before the run. -/
theorem C9_early_failure_no_write (w : World) (i o : String)
    (h : w.fs i = none ∨
      ∃ bs, w.fs i = some bs ∧ ∃ e, w.rembg bs = .error e) :
    (remove_background w i o).fs = w.fs := by
  rcases h with h | ⟨bs, hbs, e, he⟩
  · simp [remove_background, tryBody, readFileE, h]
  · simp [remove_background, tryBody, readFileE, hbs, he]

/-- C9 witness: in `badImageWorld` the routine raises on the input bytes and
the file system is returned untouched. -/
theorem C9_early_failure_no_write_witness :
    (remove_background badImageWorld "in.png" "out.png").fs
      = badImageWorld.fs :=
  C9_early_failure_no_write badImageWorld "in.png" "out.png"
    (Or.inr ⟨[0], rfl, "invalid image", rfl⟩)

/-- C10: with the external routine fixed (two worlds sharing the same
`rembg`), any two successful runs whose input files hold identical bytes
write identical bytes at their respective output paths, whatever the path
strings are. -/
theorem C10_determinism (w1 w2 : World) (i1 o1 i2 o2 : String) (bs : Bytes)
    (hr : w1.rembg = w2.rembg)
    (h1 : w1.fs i1 = some bs) (h2 : w2.fs i2 = some bs)
    (s1 : (remove_background w1 i1 o1).retcode = 0)
    (s2 : (remove_background w2 i2 o2).retcode = 0) :
    (remove_background w1 i1 o1).fs o1
      = (remove_background w2 i2 o2).fs o2 := by
  obtain ⟨bs1, out1, hread1, hok1, hw1⟩ := retcode_zero_char w1 i1 o1 s1
  obtain ⟨bs2, out2, hread2, hok2, hw2⟩ := retcode_zero_char w2 i2 o2 s2
  have e1 : bs1 = bs := (Option.some.inj (h1.symm.trans hread1)).symm
  have e2 : bs2 = bs := (Option.some.inj (h2.symm.trans hread2)).symm
  rw [e1] at hread1 hok1
  rw [e2] at hread2 hok2
  have hout : out1 = out2 := by
    have hsame : w1.rembg bs = w2.rembg bs := by rw [hr]
    rw [hok1, hok2] at hsame
    exact Except.ok.inj hsame
  rw [remove_background_success w1 i1 o1 bs out1 hread1 hok1 hw1,
    remove_background_success w2 i2 o2 bs out2 hread2 hok2 hw2]
  simp [hout]

/-- C10 witness: two successful runs in `okWorld` on the same input bytes
with different output paths write the same bytes. -/
theorem C10_determinism_witness :
    (remove_background okWorld "in.png" "out.png").fs "out.png"
      = (remove_background okWorld "in.png" "other.png").fs "other.png" :=
  C10_determinism okWorld okWorld "in.png" "out.png" "in.png" "other.png"
    [7, 7] rfl rfl rfl rfl rfl
